import Mathlib

/-!
Shallow embedding of the exam-schedule application `src/app.py`
(validator, date formatters, record store, request handlers, export
pipeline), followed by theorems settling the specification claims.
-/

namespace Cronograma

/-! ## Python string helpers -/

/-- The characters Python `str.strip()` removes (every `c` with
`c.isspace()` true: ASCII whitespace, the separator controls
`\x1c`-`\x1f`, `\x85`, and the Unicode space characters). -/
def pyWhitespace : List Char :=
  [' ', '\t', '\n', '\r', '\x0b', '\x0c', '\x1c', '\x1d', '\x1e', '\x1f',
   '\x85', '\xa0', ' ', ' ', ' ', ' ', ' ',
   ' ', ' ', ' ', ' ', ' ', ' ', ' ',
   ' ', ' ', ' ', ' ', '　']

def pyIsSpace (c : Char) : Bool := pyWhitespace.contains c

/-- Python `s.strip()`: drop leading and trailing whitespace characters. -/
def pyStrip (s : String) : String :=
  String.mk (((s.toList.dropWhile pyIsSpace).reverse.dropWhile pyIsSpace).reverse)

def isDigitChar (c : Char) : Bool := 48 ≤ c.toNat && c.toNat ≤ 57

/-- Numeric value of a digit string (most significant digit first). -/
def natOfDigits (l : List Char) : Nat :=
  l.foldl (fun a c => 10 * a + (c.toNat - 48)) 0

/-- Split a character list on the separator character `-`
(the semantics of Python `re` splitting on the literal `-` of the
`%Y-%m-%d` pattern, and of `str.split("-")`). -/
def splitDash : List Char → List (List Char)
  | [] => [[]]
  | c :: cs =>
    if c = '-' then [] :: splitDash cs
    else
      match splitDash cs with
      | [] => [[c]]
      | p :: ps => (c :: p) :: ps

/-! ## Gregorian calendar (the model of Python `datetime`) -/

def isLeap (y : Nat) : Bool :=
  (y % 4 == 0 && y % 100 != 0) || y % 400 == 0

def daysInMonth (y m : Nat) : Nat :=
  if m = 2 then (if isLeap y then 29 else 28)
  else if m = 4 ∨ m = 6 ∨ m = 9 ∨ m = 11 then 30
  else 31

/-- Days in all years strictly before year `y` (proleptic Gregorian). -/
def daysBeforeYear (y : Nat) : Nat :=
  365 * (y - 1) + (y - 1) / 4 + (y - 1) / 400 - (y - 1) / 100

/-- Days in the months of year `y` strictly before month `m`. -/
def daysBeforeMonth (y m : Nat) : Nat :=
  (List.range (m - 1)).foldl (fun a i => a + daysInMonth y (i + 1)) 0

/-- Zero-based day number of a date: `0001-01-01` is day `0`. -/
def dayNumber (y m d : Nat) : Nat :=
  daysBeforeYear y + daysBeforeMonth y m + (d - 1)

/-- Day of the week, Monday = 0 .. Sunday = 6 (Python `date.weekday()`;
day `0`, `0001-01-01`, is a Monday in the proleptic Gregorian calendar). -/
def weekday (y m d : Nat) : Nat := dayNumber y m d % 7

/-- Model of `datetime.datetime.strptime(s, "%Y-%m-%d")` as a partial parse.
The CPython pattern compiles to the regex
`\d\d\d\d - (1[0-2]|0[1-9]|[1-9]) - (3[01]|[12]\d|0[1-9]|[1-9])`
matched against the whole string: exactly four year digits, one or two
month digits with value 1..12, one or two day digits with value 1..31;
the `datetime` constructor then requires `1 <= y` and that the day fit
the month.  Returns `some (y, m, d)` exactly when no `ValueError` is
raised. -/
def parseFecha (s : String) : Option (Nat × Nat × Nat) :=
  match splitDash s.toList with
  | [ys, ms, ds] =>
    if ys.length = 4 ∧ ys.all isDigitChar ∧
       (ms.length = 1 ∨ ms.length = 2) ∧ ms.all isDigitChar ∧
       (ds.length = 1 ∨ ds.length = 2) ∧ ds.all isDigitChar then
      let y := natOfDigits ys
      let m := natOfDigits ms
      let d := natOfDigits ds
      if 1 ≤ y ∧ 1 ≤ m ∧ m ≤ 12 ∧ 1 ≤ d ∧ d ≤ daysInMonth y m then
        some (y, m, d)
      else none
    else none
  | _ => none

/-! ## Date formatters (`formatear_fecha`, `formatear_fecha_compacta`) -/

def dias_semana : List String :=
  ["LUNES", "MARTES", "MIÉRCOLES", "JUEVES", "VIERNES", "SÁBADO", "DOMINGO"]

def dias_semana_abrev : List String :=
  ["LUN", "MAR", "MIE", "JUE", "VIE", "SAB", "DOM"]

/-- Two-digit zero padding (`strftime` `%d` and `%m`). -/
def pad2 (n : Nat) : String :=
  if n < 10 then "0" ++ toString n else toString n

/-- Model of `fecha.strftime("%d/%m/%Y")`.  On the glibc platform the program
runs on, `%Y` prints the year as a plain decimal number with no zero
padding (so year 5 prints as `5`, not `0005`). -/
def strftimeDMY (y m d : Nat) : String :=
  pad2 d ++ "/" ++ pad2 m ++ "/" ++ toString y

/-- The function `formatear_fecha`: parse `%Y-%m-%d`, render
`dias_semana[weekday] ++ " " ++ strftime("%d/%m/%Y")`; on a parse
failure return the input unchanged. -/
def formatear_fecha (fecha_str : String) : String :=
  match parseFecha fecha_str with
  | some (y, m, d) => dias_semana.getD (weekday y m d) "" ++ " " ++ strftimeDMY y m d
  | none => fecha_str

/-- The function `formatear_fecha_compacta`: same with the abbreviated weekday table. -/
def formatear_fecha_compacta (fecha_str : String) : String :=
  match parseFecha fecha_str with
  | some (y, m, d) => dias_semana_abrev.getD (weekday y m d) "" ++ " " ++ strftimeDMY y m d
  | none => fecha_str

/-! ## Validator (`validar_datos_examen`) and static reference data -/

def ESPACIOS_CURRICULARES : List String :=
  ["Lengua",
   "Matemática",
   "Lengua Extranjera",
   "Educación Física",
   "Ciencias Sociales: Geografía",
   "Ciencias Sociales: Historia-Formación Ética y Ciudadana",
   "Ciencias Naturales",
   "Educación Artística (C) Artes Visuales",
   "Educación Artística (A) Teatro",
   "Educación Artística (B) Música",
   "Comunicación Social",
   "Educación Tecnológica",
   "Lengua y Literatura",
   "Geografía",
   "Historia",
   "Física",
   "Biología",
   "Prácticas Artísticas",
   "Comunicación",
   "Sistemas de Información Contable I (PP 1)",
   "Tecnologías de la Información y la Comunicación",
   "Procesamiento Digital",
   "Proyecto Integrado: Ciencias Sociales",
   "Química",
   "Sistemas de Información Contable II",
   "Administración de las Organizaciones",
   "Economía I",
   "Derecho",
   "Tecnología, Sociedad y Conocimiento",
   "Producción Multimedial",
   "Funcionamiento de Sistemas Digitales",
   "Resoluciones Lógicas",
   "Economía Social",
   "Formación Ética y Ciudadana",
   "Formación para la Vida y el Trabajo",
   "Proyecto y Gestión de Microemprendimientos",
   "Sistemas de Información Contable III",
   "Teoría y Práctica Impositiva",
   "Economía II",
   "Arquitectura de Hardware",
   "Sistemas digitales y redes",
   "Programación",
   "Desarrollo de Sistemas Digitales"]

def anios_permitidos : List String :=
  ["1° año", "2° año", "3° año", "4° año", "5° año"]

/-- The validator `validar_datos_examen`: date must `strptime` under `%Y-%m-%d`
(the `ValueError` is caught and turned into the normal failure branch),
subject must be in the fixed catalog, year in the fixed 5-value list,
and time slot and teacher must be non-empty after `strip()`;
first failure wins. -/
def validar_datos_examen (fecha espacio_curricular anio horario docente : String) :
    Bool × String :=
  if (parseFecha fecha).isNone then (false, "Fecha inválida")
  else if ¬ ESPACIOS_CURRICULARES.contains espacio_curricular then
    (false, "Espacio curricular no válido")
  else if ¬ anios_permitidos.contains anio then (false, "Año no válido")
  else if pyStrip horario = "" then (false, "Horario no puede estar vacío")
  else if pyStrip docente = "" then (false, "Docente no puede estar vacío")
  else (true, "")

/-! ## Record store

One SQLite table `examenes (id INTEGER PRIMARY KEY AUTOINCREMENT, fecha,
espacio_curricular, anio, horario, docente TEXT NOT NULL)`.  `rows`
holds the table rows in rowid (insertion) order, the order a plain
`SELECT` scans them in; `seq` is the `AUTOINCREMENT` sequence, so ids
are never reused after a delete. -/

structure Row where
  id : Nat
  fecha : String
  espacio_curricular : String
  anio : String
  horario : String
  docente : String
deriving DecidableEq, Repr

structure Store where
  rows : List Row
  seq : Nat
deriving DecidableEq, Repr

def Store.empty : Store := ⟨[], 0⟩

/-- Well-formedness maintained by the schema: every rowid was drawn from
the sequence, and `id` is a primary key (pairwise distinct). -/
def Store.WF (st : Store) : Prop :=
  (∀ r ∈ st.rows, r.id ≤ st.seq) ∧ st.rows.Pairwise (fun a b => a.id ≠ b.id)

/-- Model of `INSERT INTO examenes (fecha, espacio_curricular, anio, horario,
docente) VALUES (?, ?, ?, ?, ?)`: the row is appended with the next
`AUTOINCREMENT` id. -/
def insertExamen (st : Store) (fecha espacio_curricular anio horario docente : String) :
    Store × Nat :=
  (⟨st.rows ++ [⟨st.seq + 1, fecha, espacio_curricular, anio, horario, docente⟩],
    st.seq + 1⟩, st.seq + 1)

/-! ## `ORDER BY fecha`

SQLite sorts the scanned rows by the TEXT column `fecha` under the
BINARY collation, a bytewise comparison of the UTF-8 encodings; rows
with equal keys are emitted in scan (rowid) order.  Modelled as a
stable insertion sort keyed on `fecha` with codepoint-lexicographic
comparison (identical to bytewise comparison on valid UTF-8). -/

def charListLe : List Char → List Char → Bool
  | [], _ => true
  | _ :: _, [] => false
  | a :: as, b :: bs =>
    if a.toNat < b.toNat then true
    else if b.toNat < a.toNat then false
    else charListLe as bs

def strLe (a b : String) : Bool := charListLe a.toList b.toList

def insertFecha (r : Row) : List Row → List Row
  | [] => [r]
  | x :: xs => if strLe r.fecha x.fecha then r :: x :: xs else x :: insertFecha r xs

def sortByFecha : List Row → List Row
  | [] => []
  | x :: xs => insertFecha x (sortByFecha xs)

/-- Model of `SELECT * FROM examenes ORDER BY fecha`. -/
def queryOrdered (st : Store) : List Row := sortByFecha st.rows

/-! ## Request handlers -/

inductive Response where
  | redirectIndex : Response
  | errorPage : String → Nat → Response
deriving DecidableEq, Repr

/-- The `index` route: fetch all rows ordered by `fecha` and replace
position 1 (the date) of each row tuple by its long formatted form. -/
def index (st : Store) : List Row :=
  (queryOrdered st).map (fun r => { r with fecha := formatear_fecha r.fecha })

/-- The POST branch of `agregar`: Python falsiness of a missing or empty
field gives the 400 "Faltan datos" page, validation failure the 400
"Datos inválidos" page; otherwise the row is inserted and the handler
redirects to `index`. -/
def agregar (st : Store) (fecha espacio_curricular anio horario docente : String) :
    Store × Response :=
  if fecha = "" ∨ espacio_curricular = "" ∨ anio = "" ∨ horario = "" ∨ docente = "" then
    (st, .errorPage "Faltan datos. Por favor complete todos los campos." 400)
  else
    match validar_datos_examen fecha espacio_curricular anio horario docente with
    | (true, _) =>
      ((insertExamen st fecha espacio_curricular anio horario docente).1, .redirectIndex)
    | (false, msg) => (st, .errorPage ("Datos inválidos: " ++ msg) 400)

/-- What `UPDATE examenes SET fecha=?, espacio_curricular=?, anio=?,
horario=?, docente=? WHERE id=?` does to one row. -/
def updateRow (id : Nat) (fecha espacio_curricular anio horario docente : String)
    (r : Row) : Row :=
  if r.id = id then
    { r with fecha := fecha, espacio_curricular := espacio_curricular,
             anio := anio, horario := horario, docente := docente }
  else r

/-- The POST branch of `editar`: same field and validation checks, then
`UPDATE examenes SET ... WHERE id=?` (which touches no row when the id
is absent) and an unconditional redirect to `index`. -/
def editar_post (st : Store) (id : Nat)
    (fecha espacio_curricular anio horario docente : String) : Store × Response :=
  if fecha = "" ∨ espacio_curricular = "" ∨ anio = "" ∨ horario = "" ∨ docente = "" then
    (st, .errorPage "Faltan datos. Por favor complete todos los campos." 400)
  else
    match validar_datos_examen fecha espacio_curricular anio horario docente with
    | (true, _) =>
      (⟨st.rows.map (updateRow id fecha espacio_curricular anio horario docente),
        st.seq⟩, .redirectIndex)
    | (false, msg) => (st, .errorPage ("Datos inválidos: " ++ msg) 400)

inductive EditarGetResult where
  | notFound : EditarGetResult
  | form : Row → EditarGetResult
deriving DecidableEq, Repr

/-- The GET branch of `editar`: `SELECT * FROM examenes WHERE id=?`,
`fetchone`; a missing row gives the 404 "Examen no encontrado" page,
otherwise the edit form is rendered with the row. -/
def editar_get (st : Store) (id : Nat) : EditarGetResult :=
  match st.rows.find? (fun r => r.id == id) with
  | some r => .form r
  | none => .notFound

/-- The handler `eliminar`: `DELETE FROM examenes WHERE id=?` then redirect;
deleting an absent id matches no row and is not an error. -/
def eliminar (st : Store) (id : Nat) : Store × Response :=
  (⟨st.rows.filter (fun r => r.id ≠ id), st.seq⟩, .redirectIndex)

/-! ## Export pipeline (`exportar_pdf`) -/

/-- Model of `SELECT fecha, espacio_curricular, anio, horario, docente
FROM examenes ORDER BY fecha`, with the date of each row replaced
(position 0) by its
compact formatted form — the `examenes_formateados` list both renderer
branches consume. -/
def exportRows (st : Store) : List (List String) :=
  (queryOrdered st).map (fun r =>
    [formatear_fecha_compacta r.fecha, r.espacio_curricular, r.anio, r.horario, r.docente])

def encabezado : List String :=
  ["Fecha", "Espacio Curricular", "Año", "Horario", "Docente"]

/-- The `data` table handed to the rich (ReportLab) renderer: the header
row followed by the formatted rows. -/
def pdfTableData (st : Store) : List (List String) :=
  encabezado :: exportRows st

/-- Python `csv.writer` field rendering with the default dialect
(QUOTE_MINIMAL): a field containing the delimiter, the quote character
or a line-terminator character is wrapped in double quotes with inner
quotes doubled; any other field is written verbatim. -/
def csvField (s : String) : String :=
  if s.toList.any (fun c => c = ',' ∨ c = '"' ∨ c = '\r' ∨ c = '\n') then
    "\"" ++ String.mk (s.toList.foldr
      (fun c acc => if c = '"' then '"' :: '"' :: acc else c :: acc) []) ++ "\""
  else s

def csvRow (fields : List String) : String :=
  String.intercalate "," (fields.map csvField)

/-- The fallback (CSV) renderer: the header row then one row per
formatted record, each as one line of the file (the `\r\n` terminators
are not part of the lines). -/
def csvLines (st : Store) : List String :=
  csvRow encabezado :: (exportRows st).map csvRow

/-! ## Spec-side definitions

These transcribe the wording of the specification, to be compared with the
definitions above that embed the source. -/

/-- The rule list of the specification for the validator, in its stated
order: each entry is the pass condition of the rule and the failure reason. -/
def specRules (fecha espacio_curricular anio horario docente : String) :
    List (Bool × String) :=
  [((parseFecha fecha).isSome, "Fecha inválida"),
   (ESPACIOS_CURRICULARES.contains espacio_curricular, "Espacio curricular no válido"),
   (anios_permitidos.contains anio, "Año no válido"),
   (pyStrip horario != "", "Horario no puede estar vacío"),
   (pyStrip docente != "", "Docente no puede estar vacío")]

/-- "first failure wins": return `(false, reason)` for the first rule
that fails, `(true, "")` when every rule passes. -/
def firstFailure : List (Bool × String) → Bool × String
  | [] => (true, "")
  | (ok, msg) :: rest => if ok then firstFailure rest else (false, msg)

/-- Four-digit zero-padded year: the `YYYY` of the output shape
`"<WEEKDAY> DD/MM/YYYY"` stated by the specification. -/
def pad4 (n : Nat) : String :=
  if n < 10 then "000" ++ toString n
  else if n < 100 then "00" ++ toString n
  else if n < 1000 then "0" ++ toString n
  else toString n

/-- The output shape claimed for `format_long`:
`"<WEEKDAY> DD/MM/YYYY"` with the weekday from the fixed table. -/
def specFormatLong (y m d : Nat) : String :=
  dias_semana.getD (weekday y m d) "" ++ " " ++ pad2 d ++ "/" ++ pad2 m ++ "/" ++ pad4 y

/-- The output shape claimed for `format_compact`. -/
def specFormatCompact (y m d : Nat) : String :=
  dias_semana_abrev.getD (weekday y m d) "" ++ " " ++ pad2 d ++ "/" ++ pad2 m ++ "/" ++ pad4 y

/-- The possible failure messages of the validator. -/
def mensajesError : List String :=
  ["Fecha inválida", "Espacio curricular no válido", "Año no válido",
   "Horario no puede estar vacío", "Docente no puede estar vacío"]

/-! ## Concrete scenario stores -/

/-- Store after inserting three valid records with dates
`2025-08-23`, `2025-08-22`, `2025-08-22` in that order. -/
def storeC3 : Store :=
  (agregar (agregar (agregar Store.empty
    "2025-08-23" "Matemática" "1° año" "09:30" "DIAZ, PAMELA").1
    "2025-08-22" "Lengua" "2° año" "14:00" "GOMEZ, CARLOS").1
    "2025-08-22" "Historia" "3° año" "10:00" "PEREZ, ANA").1

/-- Store after inserting the end-to-end scenario record. -/
def storeC6 : Store :=
  (agregar Store.empty "2025-09-12" "Matemática" "1° año" "09:00 - 11:00"
    "DIAZ, PAMELA").1

/-! ## Claims about the validator and the formatters -/

/-- C1: the validator checks date-parse, subject-in-catalog,
year-in-5-set, time-slot-nonblank, teacher-nonblank in that fixed
order, returns `(false, reason)` at the first failing rule, and returns
`(true, "")` exactly when every rule holds. -/
theorem c1_validator_first_failure (f e a h d : String) :
    validar_datos_examen f e a h d = firstFailure (specRules f e a h d)
    ∧ (validar_datos_examen f e a h d = (true, "")
        ↔ (parseFecha f).isSome = true ∧ e ∈ ESPACIOS_CURRICULARES
          ∧ a ∈ anios_permitidos ∧ pyStrip h ≠ "" ∧ pyStrip d ≠ "") := by
  simp only [validar_datos_examen, specRules, firstFailure]
  constructor
  · split_ifs <;> simp_all [Option.isNone_iff_eq_none, Option.isSome_iff_ne_none]
  · split_ifs <;>
      simp_all [Option.isNone_iff_eq_none, Option.isSome_iff_ne_none,
        List.elem_iff]

/-- C2 counterexample: `"0005-01-01"` parses under `%Y-%m-%d`, but the
formatter prints the year without zero padding (`"SÁBADO 01/01/5"`), so
the output is not of the claimed `"<WEEKDAY> DD/MM/YYYY"` shape. -/
theorem c2_counterexample :
    parseFecha "0005-01-01" = some (5, 1, 1)
    ∧ formatear_fecha "0005-01-01" = "SÁBADO 01/01/5"
    ∧ formatear_fecha "0005-01-01" ≠ specFormatLong 5 1 1
    ∧ formatear_fecha_compacta "0005-01-01" ≠ specFormatCompact 5 1 1 := by
  decide

/-- C2 (amended): for every date string parsing to a date with a
four-digit-significant year (`1000 ≤ y`), `format_long` produces
`"<WEEKDAY> DD/MM/YYYY"` with the weekday from the fixed long table
(ISO weekday, Monday = 0), and `format_compact` the same with the
3-letter table; for years below 1000 the year is printed without zero
padding. -/
theorem c2_formatters (s : String) (y m d : Nat)
    (hp : parseFecha s = some (y, m, d)) (hy : 1000 ≤ y) :
    formatear_fecha s = specFormatLong y m d
    ∧ formatear_fecha_compacta s = specFormatCompact y m d := by
  have h10 : ¬ y < 10 := by omega
  have h100 : ¬ y < 100 := by omega
  have h1000 : ¬ y < 1000 := by omega
  constructor
  · simp [formatear_fecha, hp, specFormatLong, strftimeDMY, pad4, h10, h100, h1000,
        String.append_assoc]
  · simp [formatear_fecha_compacta, hp, specFormatCompact, strftimeDMY, pad4, h10, h100,
        h1000, String.append_assoc]

/-- C2 witness: the example given in the claim, `format_long("2025-09-12") =
"VIERNES 12/09/2025"`, through the amended theorem. -/
theorem c2_formatters_witness :
    formatear_fecha "2025-09-12" = specFormatLong 2025 9 12
    ∧ formatear_fecha_compacta "2025-09-12" = specFormatCompact 2025 9 12
    ∧ specFormatLong 2025 9 12 = "VIERNES 12/09/2025"
    ∧ specFormatCompact 2025 9 12 = "VIE 12/09/2025" :=
  ⟨(c2_formatters "2025-09-12" 2025 9 12 (by decide) (by decide)).1,
   (c2_formatters "2025-09-12" 2025 9 12 (by decide) (by decide)).2,
   by decide, by decide⟩

/-- C7: both formatters are the identity on every string that does not
parse under `%Y-%m-%d` (the caught `ValueError` branch returns the
input), and being total functions they never raise. -/
theorem c7_fail_soft (s : String) (h : parseFecha s = none) :
    formatear_fecha s = s ∧ formatear_fecha_compacta s = s := by
  simp [formatear_fecha, formatear_fecha_compacta, h]

/-- C7 witness: the test string `"fecha-invalida"` used by the repository tests. -/
theorem c7_fail_soft_witness :
    formatear_fecha "fecha-invalida" = "fecha-invalida"
    ∧ formatear_fecha_compacta "fecha-invalida" = "fecha-invalida" :=
  c7_fail_soft "fecha-invalida" (by decide)

/-- C8: the validator is total — on every tuple of strings it returns a
`(Bool, String)` pair that is either `(true, "")` or `(false, m)` with
`m` one of the five fixed messages — and a malformed date string takes
the normal `(false, "Fecha inválida")` branch, not an exceptional one. -/
theorem c8_validator_total (f e a h d : String) :
    (validar_datos_examen f e a h d = (true, "")
      ∨ ((validar_datos_examen f e a h d).1 = false
          ∧ (validar_datos_examen f e a h d).2 ∈ mensajesError))
    ∧ (parseFecha f = none
        → validar_datos_examen f e a h d = (false, "Fecha inválida")) := by
  constructor
  · simp only [validar_datos_examen]
    split_ifs <;> simp [mensajesError]
  · intro hf
    simp [validar_datos_examen, hf]

/-- C8 witness: a malformed date string goes down the normal failure
branch. -/
theorem c8_validator_total_witness :
    validar_datos_examen "2025-99-99" "Matemática" "1° año" " " " "
      = (false, "Fecha inválida") :=
  (c8_validator_total "2025-99-99" "Matemática" "1° año" " " " ").2 (by decide)

/-! ## Order lemmas for `ORDER BY fecha` -/

theorem charListLe_refl (l : List Char) : charListLe l l = true := by
  induction l with
  | nil => rfl
  | cons a as ih => simp [charListLe, ih]

theorem charListLe_total (a b : List Char) :
    charListLe a b = true ∨ charListLe b a = true := by
  induction a generalizing b with
  | nil => left; rfl
  | cons x xs ih =>
    cases b with
    | nil => right; rfl
    | cons y ys =>
      simp only [charListLe]
      rcases Nat.lt_trichotomy x.toNat y.toNat with h | h | h
      · left; simp [h]
      · have hx : ¬ x.toNat < y.toNat := by omega
        have hy : ¬ y.toNat < x.toNat := by omega
        rcases ih ys with h' | h' <;> [left; right] <;> simp [hx, hy, h']
      · right; simp [h]

theorem strLe_refl (s : String) : strLe s s = true := charListLe_refl _

theorem strLe_total (a b : String) : strLe a b = true ∨ strLe b a = true :=
  charListLe_total _ _

theorem mem_insertFecha {y r : Row} {l : List Row} :
    y ∈ insertFecha r l ↔ y = r ∨ y ∈ l := by
  induction l with
  | nil => simp [insertFecha]
  | cons x xs ih =>
    simp only [insertFecha]
    split_ifs with h
    · simp [or_comm, or_left_comm]
    · simp [ih, or_comm, or_left_comm]

theorem perm_insertFecha (r : Row) (l : List Row) :
    List.Perm (insertFecha r l) (r :: l) := by
  induction l with
  | nil => simp [insertFecha]
  | cons x xs ih =>
    simp only [insertFecha]
    split_ifs with h
    · exact List.Perm.refl _
    · exact (List.Perm.cons x ih).trans (List.Perm.swap r x xs)

theorem perm_sortByFecha (l : List Row) : List.Perm (sortByFecha l) l := by
  induction l with
  | nil => exact List.Perm.refl _
  | cons x xs ih =>
    exact (perm_insertFecha x (sortByFecha xs)).trans (List.Perm.cons x ih)

theorem charListLe_trans (a : List Char) : ∀ b c : List Char,
    charListLe a b = true → charListLe b c = true → charListLe a c = true := by
  induction a with
  | nil => intro b c _ _; rfl
  | cons x xs ih =>
    intro b c hab hbc
    cases b with
    | nil => simp [charListLe] at hab
    | cons y ys =>
      cases c with
      | nil => simp [charListLe] at hbc
      | cons z zs =>
        simp only [charListLe] at hab hbc ⊢
        rcases Nat.lt_trichotomy x.toNat y.toNat with h1 | h1 | h1
        · rcases Nat.lt_trichotomy y.toNat z.toNat with h2 | h2 | h2
          · simp [show x.toNat < z.toNat by omega]
          · simp [show x.toNat < z.toNat by omega]
          · simp [show ¬ y.toNat < z.toNat by omega, h2] at hbc
        · have ha1 : ¬ x.toNat < y.toNat := by omega
          have ha2 : ¬ y.toNat < x.toNat := by omega
          simp only [ha1, ha2, if_false] at hab
          rcases Nat.lt_trichotomy y.toNat z.toNat with h2 | h2 | h2
          · simp [show x.toNat < z.toNat by omega]
          · have hb1 : ¬ y.toNat < z.toNat := by omega
            have hb2 : ¬ z.toNat < y.toNat := by omega
            simp only [hb1, hb2, if_false] at hbc
            simp [show ¬ x.toNat < z.toNat by omega, show ¬ z.toNat < x.toNat by omega,
              ih ys zs hab hbc]
          · simp [show ¬ y.toNat < z.toNat by omega, h2] at hbc
        · simp [show ¬ x.toNat < y.toNat by omega, h1] at hab

theorem strLe_trans {a b c : String} (h1 : strLe a b = true) (h2 : strLe b c = true) :
    strLe a c = true :=
  charListLe_trans _ _ _ h1 h2

theorem pairwise_insertFecha {r : Row} {l : List Row}
    (h : l.Pairwise (fun a b => strLe a.fecha b.fecha = true)) :
    (insertFecha r l).Pairwise (fun a b => strLe a.fecha b.fecha = true) := by
  induction l with
  | nil => simp [insertFecha]
  | cons x xs ih =>
    rcases List.pairwise_cons.mp h with ⟨hx, hxs⟩
    simp only [insertFecha]
    split_ifs with hle
    · refine List.pairwise_cons.mpr ⟨?_, h⟩
      intro z hz
      rcases List.mem_cons.mp hz with rfl | hz
      · exact hle
      · exact strLe_trans hle (hx z hz)
    · refine List.pairwise_cons.mpr ⟨?_, ih hxs⟩
      intro z hz
      rcases mem_insertFecha.mp hz with rfl | hz
      · exact Or.resolve_left (strLe_total z.fecha x.fecha) hle
      · exact hx z hz

theorem pairwise_sortByFecha (l : List Row) :
    (sortByFecha l).Pairwise (fun a b => strLe a.fecha b.fecha = true) := by
  induction l with
  | nil => simp [sortByFecha]
  | cons x xs ih => exact pairwise_insertFecha ih

theorem filter_insertFecha (k : String) (r : Row) (l : List Row) :
    (insertFecha r l).filter (fun x => x.fecha == k)
      = if r.fecha = k then r :: l.filter (fun x => x.fecha == k)
        else l.filter (fun x => x.fecha == k) := by
  induction l with
  | nil => by_cases hr : r.fecha = k <;> simp [insertFecha, hr]
  | cons x xs ih =>
    simp only [insertFecha]
    by_cases hle : strLe r.fecha x.fecha = true
    · rw [if_pos hle]
      by_cases hr : r.fecha = k <;> simp [List.filter_cons, hr]
    · rw [if_neg hle]
      by_cases hr : r.fecha = k
      · have hx : ¬ x.fecha = k := fun hx =>
          hle (by rw [show r.fecha = x.fecha from hr.trans hx.symm]; exact strLe_refl x.fecha)
        simp [List.filter_cons, hr, hx, ih]
      · simp [List.filter_cons, ih, hr]

theorem filter_sortByFecha (k : String) (l : List Row) :
    (sortByFecha l).filter (fun x => x.fecha == k)
      = l.filter (fun x => x.fecha == k) := by
  induction l with
  | nil => rfl
  | cons x xs ih =>
    simp only [sortByFecha]
    rw [filter_insertFecha, ih, List.filter_cons]
    by_cases hx : x.fecha = k <;> simp [hx]

/-! ## Claims about listing order and the export pipeline -/

/-- C3: the list-all query returns the rows ordered ascending by the
`fecha` field, with equal dates in insertion (rowid) order; in the
concrete scenario — dates `2025-08-23`, `2025-08-22`, `2025-08-22`
inserted in that order — the two `2025-08-22` rows (ids 2 and 3, in
that order) come before the `2025-08-23` row. -/
theorem c3_listing_order :
    (∀ st : Store,
      (queryOrdered st).Pairwise (fun a b => strLe a.fecha b.fecha = true)
      ∧ ∀ k : String,
          (queryOrdered st).filter (fun r => r.fecha == k)
            = st.rows.filter (fun r => r.fecha == k))
    ∧ (queryOrdered storeC3).map (fun r => (r.id, r.fecha))
        = [(2, "2025-08-22"), (3, "2025-08-22"), (1, "2025-08-23")]
    ∧ (index storeC3).map (fun r => (r.id, r.docente))
        = [(2, "GOMEZ, CARLOS"), (3, "PEREZ, ANA"), (1, "DIAZ, PAMELA")] := by
  refine ⟨fun st => ⟨pairwise_sortByFecha st.rows, fun k => filter_sortByFecha k st.rows⟩,
    by decide, by decide⟩

/-- C9: both renderer paths consume the same formatted row list — the
rows of the store query, in query order, with columns
`[date, subject, year_level, time_slot, teacher]` and `format_compact`
applied to the date column — and the query order is ascending by date
over a permutation of the stored rows. -/
theorem c9_export_renderers (st : Store) :
    pdfTableData st = encabezado ::
        (queryOrdered st).map (fun r =>
          [formatear_fecha_compacta r.fecha, r.espacio_curricular, r.anio,
           r.horario, r.docente])
    ∧ csvLines st = csvRow encabezado ::
        ((queryOrdered st).map (fun r =>
          [formatear_fecha_compacta r.fecha, r.espacio_curricular, r.anio,
           r.horario, r.docente])).map csvRow
    ∧ (queryOrdered st).Pairwise (fun a b => strLe a.fecha b.fecha = true)
    ∧ List.Perm (queryOrdered st) st.rows :=
  ⟨rfl, rfl, pairwise_sortByFecha st.rows, perm_sortByFecha st.rows⟩

/-! ## Store lemmas -/

theorem validar_true_iff (f e a h d : String) :
    validar_datos_examen f e a h d = (true, "")
      ↔ (parseFecha f).isSome = true ∧ ESPACIOS_CURRICULARES.contains e = true
        ∧ anios_permitidos.contains a = true ∧ pyStrip h ≠ "" ∧ pyStrip d ≠ "" := by
  simp only [validar_datos_examen]
  split_ifs <;> simp_all [Option.isNone_iff_eq_none, Option.isSome_iff_ne_none]

theorem validar_nonempty {f e a h d : String}
    (hv : validar_datos_examen f e a h d = (true, "")) :
    f ≠ "" ∧ e ≠ "" ∧ a ≠ "" ∧ h ≠ "" ∧ d ≠ "" := by
  obtain ⟨h1, h2, h3, h4, h5⟩ := (validar_true_iff f e a h d).mp hv
  refine ⟨fun hf => ?_, fun he => ?_, fun ha => ?_, fun hh => ?_, fun hd => ?_⟩
  · subst hf; exact absurd h1 (by decide)
  · subst he; exact absurd h2 (by decide)
  · subst ha; exact absurd h3 (by decide)
  · subst hh; exact h4 (by decide)
  · subst hd; exact h5 (by decide)

theorem agregar_of_valid (st : Store) {f e a h d : String}
    (hv : validar_datos_examen f e a h d = (true, "")) :
    agregar st f e a h d
      = (⟨st.rows ++ [⟨st.seq + 1, f, e, a, h, d⟩], st.seq + 1⟩,
         Response.redirectIndex) := by
  obtain ⟨hf, he, ha, hh, hd⟩ := validar_nonempty hv
  simp [agregar, hf, he, ha, hh, hd, hv, insertExamen]

theorem editar_post_of_valid (st : Store) (i : Nat) {f e a h d : String}
    (hv : validar_datos_examen f e a h d = (true, "")) :
    editar_post st i f e a h d
      = (⟨st.rows.map (updateRow i f e a h d), st.seq⟩, Response.redirectIndex) := by
  obtain ⟨hf, he, ha, hh, hd⟩ := validar_nonempty hv
  simp [editar_post, hf, he, ha, hh, hd, hv]

theorem find?_map_updateRow (i : Nat) (f e a h d : String) (rows : List Row)
    (hex : ∃ r ∈ rows, r.id = i) :
    (rows.map (updateRow i f e a h d)).find? (fun r => r.id == i)
      = some ⟨i, f, e, a, h, d⟩ := by
  induction rows with
  | nil => simp at hex
  | cons x xs ih =>
    by_cases hx : x.id = i
    · subst hx
      simp [List.find?, updateRow]
    · have hex' : ∃ r ∈ xs, r.id = i := by
        rcases hex with ⟨r, hr, hri⟩
        rcases List.mem_cons.mp hr with rfl | hr
        · exact absurd hri hx
        · exact ⟨r, hr, hri⟩
      have hpx : ((updateRow i f e a h d x).id == i) = false := by
        simp [updateRow, hx]
      simp only [List.map_cons]
      rw [List.find?_cons_of_neg _ (by simp [hpx]), ih hex']

theorem find?_append_of_none (p : Row → Bool) (l1 l2 : List Row)
    (h : ∀ r ∈ l1, p r = false) :
    (l1 ++ l2).find? p = l2.find? p := by
  induction l1 with
  | nil => rfl
  | cons x xs ih =>
    rw [List.cons_append, List.find?_cons_of_neg _ (by simp [h x (List.mem_cons_self x xs)]),
      ih (fun r hr => h r (List.mem_cons_of_mem x hr))]

theorem mem_queryOrdered {r : Row} {st : Store} :
    r ∈ queryOrdered st ↔ r ∈ st.rows :=
  (perm_sortByFecha st.rows).mem_iff

/-! ## Claims about the store round trip and error handling -/

/-- C4: inserting a valid record then listing returns a row with
exactly the submitted field values and a freshly assigned id not
previously in use; updating an existing id with valid values then
reading that id yields the new values under the same id; deleting an id
then reading it yields not-found. -/
theorem c4_roundtrip (st : Store) (hwf : st.WF) (i : Nat)
    (f e a h d f2 e2 a2 h2 d2 : String)
    (hv : validar_datos_examen f e a h d = (true, ""))
    (hv2 : validar_datos_examen f2 e2 a2 h2 d2 = (true, ""))
    (hex : ∃ r ∈ st.rows, r.id = i) :
    (agregar st f e a h d
        = (⟨st.rows ++ [⟨st.seq + 1, f, e, a, h, d⟩], st.seq + 1⟩,
           Response.redirectIndex)
      ∧ (∀ r ∈ st.rows, r.id ≠ st.seq + 1)
      ∧ (⟨st.seq + 1, f, e, a, h, d⟩ : Row) ∈ queryOrdered (agregar st f e a h d).1)
    ∧ ((editar_post st i f2 e2 a2 h2 d2).2 = Response.redirectIndex
      ∧ editar_get (editar_post st i f2 e2 a2 h2 d2).1 i
          = EditarGetResult.form ⟨i, f2, e2, a2, h2, d2⟩)
    ∧ editar_get (eliminar st i).1 i = EditarGetResult.notFound := by
  refine ⟨⟨agregar_of_valid st hv, ?_, ?_⟩, ⟨?_, ?_⟩, ?_⟩
  · intro r hr
    have := hwf.1 r hr
    omega
  · rw [agregar_of_valid st hv]
    exact mem_queryOrdered.mpr (List.mem_append_right _ (List.mem_singleton.mpr rfl))
  · rw [editar_post_of_valid st i hv2]
  · rw [editar_post_of_valid st i hv2]
    simp only [editar_get]
    rw [find?_map_updateRow i f2 e2 a2 h2 d2 st.rows hex]
  · simp only [eliminar, editar_get]
    rw [List.find?_eq_none.mpr]
    intro x hx
    have : x.id ≠ i := by
      have := List.mem_filter.mp hx
      simpa using this.2
    simp [this]

/-- C4 witness: the round trip on a concrete one-row store. -/
theorem c4_roundtrip_witness :
    ((⟨2, "2025-09-12", "Matemática", "1° año", "09:00 - 11:00", "DIAZ, PAMELA"⟩ : Row)
        ∈ queryOrdered (agregar ⟨[⟨1, "2025-08-22", "Lengua", "2° año", "14:00",
            "GOMEZ, CARLOS"⟩], 1⟩ "2025-09-12" "Matemática" "1° año" "09:00 - 11:00"
            "DIAZ, PAMELA").1)
    ∧ editar_get (editar_post ⟨[⟨1, "2025-08-22", "Lengua", "2° año", "14:00",
          "GOMEZ, CARLOS"⟩], 1⟩ 1 "2025-08-23" "Historia" "3° año" "10:00"
          "PEREZ, ANA").1 1
        = EditarGetResult.form ⟨1, "2025-08-23", "Historia", "3° año", "10:00", "PEREZ, ANA"⟩
    ∧ editar_get (eliminar ⟨[⟨1, "2025-08-22", "Lengua", "2° año", "14:00",
          "GOMEZ, CARLOS"⟩], 1⟩ 1).1 1 = EditarGetResult.notFound := by
  have h := c4_roundtrip
    ⟨[⟨1, "2025-08-22", "Lengua", "2° año", "14:00", "GOMEZ, CARLOS"⟩], 1⟩
    (by constructor
        · intro r hr; fin_cases hr; decide
        · decide)
    1 "2025-09-12" "Matemática" "1° año" "09:00 - 11:00" "DIAZ, PAMELA"
    "2025-08-23" "Historia" "3° año" "10:00" "PEREZ, ANA"
    (by decide) (by decide) (by decide)
  exact ⟨h.1.2.2, h.2.1.2, h.2.2⟩

/-- C5 counterexample: on the empty store (id 1 absent), the update
POST with a full valid record succeeds — it redirects to the listing —
instead of reporting the distinct not-found outcome. -/
theorem c5_counterexample :
    editar_post Store.empty 1 "2025-09-12" "Matemática" "1° año" "09:00 - 11:00"
        "DIAZ, PAMELA"
      = (Store.empty, Response.redirectIndex)
    ∧ (∀ r ∈ Store.empty.rows, r.id ≠ 1)
    ∧ Response.redirectIndex ≠ Response.errorPage "Examen no encontrado" 404 := by
  refine ⟨by decide, ?_, by decide⟩
  intro r hr
  simp [Store.empty] at hr

/-- C5 (amended): for an id not present in the store, the update POST
with a full valid record leaves the store completely unchanged but
reports success (a redirect to the listing), not a not-found outcome;
the distinct 404 "Examen no encontrado" condition is raised by the edit
form fetch (GET) for that id. -/
theorem c5_update_missing (st : Store) (i : Nat) (f e a h d : String)
    (hid : ∀ r ∈ st.rows, r.id ≠ i)
    (hv : validar_datos_examen f e a h d = (true, "")) :
    editar_post st i f e a h d = (st, Response.redirectIndex)
    ∧ editar_get st i = EditarGetResult.notFound := by
  constructor
  · rw [editar_post_of_valid st i hv]
    have hmap : st.rows.map (updateRow i f e a h d) = st.rows := by
      conv_rhs => rw [← List.map_id st.rows]
      apply List.map_congr_left
      intro r hr
      simp [updateRow, hid r hr]
    rw [hmap]
  · simp only [editar_get]
    rw [List.find?_eq_none.mpr]
    intro x hx
    simp [hid x hx]

/-- C5 witness: a concrete store in which id 7 is absent. -/
theorem c5_update_missing_witness :
    editar_post ⟨[⟨1, "2025-08-22", "Lengua", "2° año", "14:00", "GOMEZ, CARLOS"⟩], 1⟩
        7 "2025-09-12" "Matemática" "1° año" "09:00 - 11:00" "DIAZ, PAMELA"
      = (⟨[⟨1, "2025-08-22", "Lengua", "2° año", "14:00", "GOMEZ, CARLOS"⟩], 1⟩,
         Response.redirectIndex)
    ∧ editar_get ⟨[⟨1, "2025-08-22", "Lengua", "2° año", "14:00", "GOMEZ, CARLOS"⟩], 1⟩ 7
        = EditarGetResult.notFound :=
  c5_update_missing
    ⟨[⟨1, "2025-08-22", "Lengua", "2° año", "14:00", "GOMEZ, CARLOS"⟩], 1⟩
    7 "2025-09-12" "Matemática" "1° año" "09:00 - 11:00" "DIAZ, PAMELA"
    (by intro r hr; fin_cases hr; decide) (by decide)

/-- C6 counterexample: the fallback CSV header has no spaces after
the commas, and its second line quotes the teacher field (it contains
the delimiter), so neither line reads as the claim states. -/
theorem c6_counterexample :
    (csvLines storeC6).get? 0 ≠ some "Fecha, Espacio Curricular, Año, Horario, Docente"
    ∧ (csvLines storeC6).get? 1
        ≠ some "VIE 12/09/2025,Matemática,1° año,09:00 - 11:00,DIAZ, PAMELA" := by
  decide

/-- C6 (amended): after inserting the scenario record into the empty
store, the listing shows the formatted date `VIERNES 12/09/2025`, and
the fallback export lines are the header
`Fecha,Espacio Curricular,Año,Horario,Docente` (same column names and
order, joined by bare commas) and the row
`VIE 12/09/2025,Matemática,1° año,09:00 - 11:00,"DIAZ, PAMELA"` with
the teacher field CSV-quoted because it contains a comma. -/
theorem c6_end_to_end :
    (index storeC6).map Row.fecha = ["VIERNES 12/09/2025"]
    ∧ csvLines storeC6 =
        ["Fecha,Espacio Curricular,Año,Horario,Docente",
         "VIE 12/09/2025,Matemática,1° año,09:00 - 11:00,\"DIAZ, PAMELA\""] := by
  decide

/-! ## Whitespace-padding lemmas -/

theorem dropWhile_strip_append (l : List Char) :
    ((List.dropWhile pyIsSpace (l ++ [' '])).reverse.dropWhile pyIsSpace).reverse
      = ((List.dropWhile pyIsSpace l).reverse.dropWhile pyIsSpace).reverse := by
  have hsp : pyIsSpace ' ' = true := rfl
  induction l with
  | nil => decide
  | cons c cs ih =>
    by_cases hc : pyIsSpace c = true
    · simpa [List.dropWhile_cons, hc] using ih
    · simp only [List.cons_append, List.dropWhile_cons, hc, if_false, Bool.false_eq_true,
        List.reverse_cons]
      rw [show (cs ++ [' ']).reverse ++ [c] = ' ' :: (cs.reverse ++ [c]) by simp,
        List.dropWhile_cons, if_pos hsp]

theorem pyStrip_pad (s : String) : pyStrip (" " ++ s ++ " ") = pyStrip s := by
  have hdata : (" " ++ s ++ " ").toList = ' ' :: (s.toList ++ [' ']) := by
    simp [String.toList, String.data_append]
  rw [pyStrip, pyStrip, hdata, List.dropWhile_cons,
    if_pos (show pyIsSpace ' ' = true from rfl)]
  exact congrArg String.mk (dropWhile_strip_append s.toList)

/-! ## Claim about verbatim storage and the listing frame -/

/-- C10: the create and update operations store every field exactly as
submitted — a time slot or teacher padded with whitespace around
non-blank content passes validation (only emptiness after trimming is
checked) and is returned by list and get-by-id with the whitespace
intact — and the listing transformation rewrites only the date column,
leaving id, subject, year, time slot and teacher exactly as stored. -/
theorem c10_verbatim_fields (st : Store) (hwf : st.WF) (i : Nat) (f e a h d : String)
    (hv : validar_datos_examen f e a h d = (true, ""))
    (hex : ∃ r ∈ st.rows, r.id = i) :
    validar_datos_examen f e a (" " ++ h ++ " ") (" " ++ d ++ " ") = (true, "")
    ∧ (agregar st f e a (" " ++ h ++ " ") (" " ++ d ++ " ")).1.rows
        = st.rows ++ [⟨st.seq + 1, f, e, a, " " ++ h ++ " ", " " ++ d ++ " "⟩]
    ∧ (⟨st.seq + 1, f, e, a, " " ++ h ++ " ", " " ++ d ++ " "⟩ : Row)
        ∈ queryOrdered (agregar st f e a (" " ++ h ++ " ") (" " ++ d ++ " ")).1
    ∧ editar_get (agregar st f e a (" " ++ h ++ " ") (" " ++ d ++ " ")).1 (st.seq + 1)
        = EditarGetResult.form ⟨st.seq + 1, f, e, a, " " ++ h ++ " ", " " ++ d ++ " "⟩
    ∧ editar_get (editar_post st i f e a (" " ++ h ++ " ") (" " ++ d ++ " ")).1 i
        = EditarGetResult.form ⟨i, f, e, a, " " ++ h ++ " ", " " ++ d ++ " "⟩
    ∧ (index st).map Row.id = (queryOrdered st).map Row.id
    ∧ (index st).map Row.espacio_curricular = (queryOrdered st).map Row.espacio_curricular
    ∧ (index st).map Row.anio = (queryOrdered st).map Row.anio
    ∧ (index st).map Row.horario = (queryOrdered st).map Row.horario
    ∧ (index st).map Row.docente = (queryOrdered st).map Row.docente
    ∧ (index st).map Row.fecha = (queryOrdered st).map (fun r => formatear_fecha r.fecha) := by
  have hvp : validar_datos_examen f e a (" " ++ h ++ " ") (" " ++ d ++ " ") = (true, "") := by
    obtain ⟨h1, h2, h3, h4, h5⟩ := (validar_true_iff f e a h d).mp hv
    exact (validar_true_iff f e a _ _).mpr
      ⟨h1, h2, h3, by rw [pyStrip_pad]; exact h4, by rw [pyStrip_pad]; exact h5⟩
  have hag := agregar_of_valid st hvp
  refine ⟨hvp, by rw [hag], ?_, ?_, ?_, ?_, ?_, ?_, ?_, ?_, ?_⟩
  · rw [hag]
    exact mem_queryOrdered.mpr (List.mem_append_right _ (List.mem_singleton.mpr rfl))
  · rw [hag]
    simp only [editar_get]
    rw [find?_append_of_none _ st.rows _ (fun r hr => by
      have := hwf.1 r hr
      simp [Nat.ne_of_lt (by omega : r.id < st.seq + 1)])]
    rw [List.find?_cons_of_pos _ (by simp)]
  · rw [editar_post_of_valid st i hvp]
    simp only [editar_get]
    rw [find?_map_updateRow i f e a _ _ st.rows hex]
  · simp [index, List.map_map]
  · simp [index, List.map_map]
  · simp [index, List.map_map]
  · simp [index, List.map_map]
  · simp [index, List.map_map]
  · simp [index, List.map_map]

/-- C10 witness: padded time slot and teacher on a concrete one-row
store survive create, update and get-by-id with whitespace intact. -/
theorem c10_verbatim_fields_witness :
    validar_datos_examen "2025-09-12" "Matemática" "1° año" " 09:00 - 11:00 "
        " DIAZ, PAMELA " = (true, "")
    ∧ (agregar ⟨[⟨1, "2025-08-22", "Lengua", "2° año", "14:00", "GOMEZ, CARLOS"⟩], 1⟩
        "2025-09-12" "Matemática" "1° año" " 09:00 - 11:00 " " DIAZ, PAMELA ").1.rows
      = [⟨1, "2025-08-22", "Lengua", "2° año", "14:00", "GOMEZ, CARLOS"⟩,
         ⟨2, "2025-09-12", "Matemática", "1° año", " 09:00 - 11:00 ", " DIAZ, PAMELA "⟩]
    ∧ editar_get (editar_post
        ⟨[⟨1, "2025-08-22", "Lengua", "2° año", "14:00", "GOMEZ, CARLOS"⟩], 1⟩
        1 "2025-09-12" "Matemática" "1° año" " 09:00 - 11:00 " " DIAZ, PAMELA ").1 1
      = EditarGetResult.form
          ⟨1, "2025-09-12", "Matemática", "1° año", " 09:00 - 11:00 ", " DIAZ, PAMELA "⟩ := by
  have hw := c10_verbatim_fields
    ⟨[⟨1, "2025-08-22", "Lengua", "2° año", "14:00", "GOMEZ, CARLOS"⟩], 1⟩
    (by constructor
        · intro r hr; fin_cases hr; decide
        · decide)
    1 "2025-09-12" "Matemática" "1° año" "09:00 - 11:00" "DIAZ, PAMELA"
    (by decide) (by decide)
  exact ⟨hw.1, hw.2.1, hw.2.2.2.2.1⟩

end Cronograma
